import Mathlib

/-
Verification development for the slot-reservation booking application.

Embedded sources:
- the database schema dump (tables appointments / patients / providers / time_slots,
  their CHECK constraint and unique indexes);
- src/frontend/lib/api.ts (in particular the active `createAppointment`
  implementation);
- src/frontend/lib/time.ts (the UTC date/time formatting helpers);
- src/frontend/components/TimeSlotPicker.tsx and the alternative TimeSlotPicker
  variant (filtering/disabling of unavailable slots);
- the Reserve / ResolveOrCreate backend protocol, whose implementation
  (backend/main.py) is not part of the available sources: those definitions are
  marked "Modelled from the spec" and follow the specification text.
-/

/- ===================== Database rows (schema dump) ===================== -/

/-- Row of the `appointments` table from the schema dump.  The
`created_at`/`updated_at` timestamp columns are omitted: no claim concerns them.
`patient_id` is the serial integer foreign key into `patients`. -/
structure AppointmentRow where
  id : String
  reference_number : String
  slot_id : String
  provider_id : String
  patient_id : Nat
  reason : String
  status : String
deriving DecidableEq, Repr

/-- CHECK constraint `chk_reason_length` on `appointments`:
`length(reason) >= 3 AND length(reason) <= 500`. -/
def chk_reason_length (reason : String) : Bool :=
  decide (3 ≤ reason.length) && decide (reason.length ≤ 500)

/-- Admission test for inserting one `appointments` row, from the schema dump's
constraints on that table: the CHECK constraint `chk_reason_length`, the primary
key `appointments_pkey` on `id`, the unique index
`appointments_reference_number_key` on `reference_number`, and the unique index
`ux_appointments_slot_id_not_cancelled`.  Despite its name, the schema creates
the last one as `CREATE UNIQUE INDEX ... ON "appointments" ("slot_id")` with NO
partial `WHERE` clause, so it applies to every row, cancelled rows included.
Foreign-key constraints to the other tables are not modelled; they are
irrelevant to the per-slot uniqueness claims. -/
def apptInsertOk (appts : List AppointmentRow) (row : AppointmentRow) : Bool :=
  chk_reason_length row.reason
    && appts.all (fun r => r.id != row.id)
    && appts.all (fun r => r.reference_number != row.reference_number)
    && appts.all (fun r => r.slot_id != row.slot_id)

/-- Insert into `appointments`, returning `none` when the statement would
violate one of the table's constraints. -/
def insertAppointment (appts : List AppointmentRow) (row : AppointmentRow) :
    Option (List AppointmentRow) :=
  if apptInsertOk appts row then some (row :: appts) else none

/-- Status transition (cancel / complete): an UPDATE of the `status` column of
the row with the given id.  It touches no other column. -/
def updateStatus (appts : List AppointmentRow) (aid st : String) :
    List AppointmentRow :=
  appts.map (fun r => if r.id == aid then { r with status := st } else r)

/-- DELETE of the row with the given id. -/
def deleteAppointment (appts : List AppointmentRow) (aid : String) :
    List AppointmentRow :=
  appts.filter (fun r => r.id != aid)

/-- Number of `appointments` rows referencing a slot (any status). -/
def rowCount (appts : List AppointmentRow) (sid : String) : Nat :=
  (appts.filter (fun r => r.slot_id == sid)).length

/-- Number of active (status other than cancelled) `appointments` rows
referencing a slot. -/
def activeCount (appts : List AppointmentRow) (sid : String) : Nat :=
  (appts.filter (fun r => r.slot_id == sid && r.status != "cancelled")).length

/-- The `appointments` table states reachable through the operations that write
appointment rows: constraint-guarded INSERT, status UPDATE, and DELETE, starting
from the empty table. -/
inductive ApptReachable : List AppointmentRow → Prop where
  | empty : ApptReachable []
  | insert {s s2 : List AppointmentRow} {row : AppointmentRow} :
      ApptReachable s → insertAppointment s row = some s2 → ApptReachable s2
  | update {s : List AppointmentRow} (aid st : String) :
      ApptReachable s → ApptReachable (updateStatus s aid st)
  | delete {s : List AppointmentRow} (aid : String) :
      ApptReachable s → ApptReachable (deleteAppointment s aid)

/-- Row of the `time_slots` table from the schema dump (timestamps as integer
epoch milliseconds; `created_at`/`updated_at` omitted). -/
structure TimeSlotRow where
  id : String
  provider_id : String
  start_time : Int
  end_time : Int
  available : Bool
deriving DecidableEq, Repr

/-- Number of `time_slots` rows with the given (provider_id, start_time)
composite key; the unique index `ux_time_slots_provider_start_time` demands
this never exceeds one. -/
def slotKeyCount (tbl : List TimeSlotRow) (pid : String) (t : Int) : Nat :=
  (tbl.filter (fun r => r.provider_id == pid && r.start_time == t)).length

/- ===================== Spec-modelled backend protocol ===================== -/

/-- Modelled from the spec: the Slot Registry `ResolveOrCreate` operation
(spec section 4.1).  The implementing code (the backend booking endpoint's
get-or-create of a TimeSlot under `SELECT ... FOR UPDATE`) is not among the
available sources.  The store serializes contenders on the slot row lock, so
the insert / uniqueness-violation / re-query loop of section 4.1 collapses to
find-or-insert as observed by any one serialized transaction. -/
def resolveOrCreate (tbl : List TimeSlotRow) (newId pid : String) (t te : Int) :
    TimeSlotRow × List TimeSlotRow :=
  match tbl.find? (fun r => r.provider_id == pid && r.start_time == t) with
  | some r => (r, tbl)
  | none =>
      ({ id := newId, provider_id := pid, start_time := t, end_time := te,
         available := true },
       { id := newId, provider_id := pid, start_time := t, end_time := te,
         available := true } :: tbl)

/-- The `time_slots` table states reachable through the Slot Registry: slots are
created lazily by `resolveOrCreate` and never deleted by the core. -/
inductive SlotsReachable : List TimeSlotRow → Prop where
  | empty : SlotsReachable []
  | step {tbl : List TimeSlotRow} (newId pid : String) (t te : Int) :
      SlotsReachable tbl →
      SlotsReachable (resolveOrCreate tbl newId pid t te).2

/-- Patient contact payload, from the `PatientInfo` interface of
src/frontend/lib/api.ts. -/
structure PatientInfo where
  first_name : String
  last_name : String
  email : String
  phone : String
deriving DecidableEq, Repr

/-- Reserve request shape (spec section 6): provider, start time, patient
payload, free-text reason. -/
structure ReserveRequest where
  provider_id : String
  start_time : Int
  patient : PatientInfo
  reason : String
deriving DecidableEq, Repr

/-- Typed Reserve outcomes (spec sections 6 and 7). -/
inductive ReserveOutcome where
  | success (a : AppointmentRow)
  | validationError
  | slotAlreadyBooked
  | transientConflict
  | fatal
deriving DecidableEq, Repr

/-- Recognizer for the ValidationError outcome. -/
def isValidationError : ReserveOutcome → Bool
  | .validationError => true
  | _ => false

/-- Observable store interactions of one Reserve run: opening the transaction,
taking the exclusive slot row lock, committing, rolling back. -/
inductive StoreEvent where
  | beginTxn
  | lockSlot (pid : String) (t : Int)
  | commitTxn
  | rollbackTxn
deriving DecidableEq, Repr

/-- Durable-store state relevant to the reservation protocol. -/
structure DBState where
  time_slots : List TimeSlotRow
  appointments : List AppointmentRow
deriving DecidableEq, Repr

/-- Fixed slot duration: 30 minutes in milliseconds. -/
def slotDurationMs : Int := 30 * 60 * 1000

/-- Modelled from the spec: the pre-transaction validation gate of section 4.2
("reason length must be validated before entering the transaction").  The
implementing backend request validation is not among the available sources; the
bounds are exactly those of the schema's `chk_reason_length`. -/
def validateReason (reason : String) : Bool :=
  chk_reason_length reason

/-- Active-reservation check of spec section 4.2 step 3: does a reservation
with status other than cancelled reference the slot. -/
def hasActiveReservation (appts : List AppointmentRow) (sid : String) : Bool :=
  appts.any (fun r => r.slot_id == sid && r.status != "cancelled")

/-- Reservation row written by a successful Reserve (spec section 4.2 step 3,
"If no" branch); new reservations carry status scheduled, the schema default. -/
def mkReservationRow (req : ReserveRequest) (slotId newApptId refCode : String)
    (patientId : Nat) : AppointmentRow :=
  { id := newApptId, reference_number := refCode, slot_id := slotId,
    provider_id := req.provider_id, patient_id := patientId,
    reason := req.reason, status := "scheduled" }

/-- Modelled from the spec: the in-transaction phase of Reserve (section 4.2
steps 2-5) as seen by one serialized lock holder: check for an active
reservation on the locked slot, abort with SlotAlreadyBooked if one exists,
otherwise write the reservation; a store-level uniqueness violation surfacing
at the write is classified identically to "already booked" (step 5, defense in
depth). -/
def reserveLocked (db : DBState) (req : ReserveRequest) (slot : TimeSlotRow)
    (slots2 : List TimeSlotRow) (newApptId refCode : String) (patientId : Nat) :
    ReserveOutcome × List StoreEvent × DBState :=
  if hasActiveReservation db.appointments slot.id then
    (ReserveOutcome.slotAlreadyBooked,
      [StoreEvent.beginTxn, StoreEvent.lockSlot req.provider_id req.start_time,
        StoreEvent.rollbackTxn], db)
  else
    match insertAppointment db.appointments
        (mkReservationRow req slot.id newApptId refCode patientId) with
    | some appts2 =>
        (ReserveOutcome.success
            (mkReservationRow req slot.id newApptId refCode patientId),
          [StoreEvent.beginTxn,
            StoreEvent.lockSlot req.provider_id req.start_time,
            StoreEvent.commitTxn],
          { time_slots := slots2, appointments := appts2 })
    | none =>
        (ReserveOutcome.slotAlreadyBooked,
          [StoreEvent.beginTxn,
            StoreEvent.lockSlot req.provider_id req.start_time,
            StoreEvent.rollbackTxn], db)

/-- Modelled from the spec: one Reserve call (section 4.2).  The reason-length
gate runs first and rejects without opening a transaction or touching any lock
(empty event trace, store unchanged); otherwise the slot is resolved or created
under the exclusive row lock and the in-transaction phase runs. -/
def reserve (db : DBState) (req : ReserveRequest)
    (newSlotId newApptId refCode : String) (patientId : Nat) :
    ReserveOutcome × List StoreEvent × DBState :=
  if validateReason req.reason then
    reserveLocked db req
      (resolveOrCreate db.time_slots newSlotId req.provider_id req.start_time
        (req.start_time + slotDurationMs)).1
      (resolveOrCreate db.time_slots newSlotId req.provider_id req.start_time
        (req.start_time + slotDurationMs)).2
      newApptId refCode patientId
  else (ReserveOutcome.validationError, [], db)

/- ===================== Frontend createAppointment (api.ts) ===================== -/

/-- Provider record from the `Provider` interface of src/frontend/lib/api.ts. -/
structure ProviderRec where
  id : String
  name : String
  specialty : String
  bio : Option String := none
deriving DecidableEq, Repr

/-- Slot times of the appointment payload built by `createAppointment`
(millisecond epoch timestamps; the TS code renders them with toISOString). -/
structure SlotTimes where
  start_time : Nat
  end_time : Nat
deriving DecidableEq, Repr

/-- The `Appointment` payload shape of src/frontend/lib/api.ts (`created_at`
kept as the ISO string the code produces). -/
structure Appointment where
  id : String
  reference_number : String
  status : String
  slot : SlotTimes
  provider : ProviderRec
  patient : PatientInfo
  reason : String
  created_at : String
deriving DecidableEq, Repr

/-- JS `"...".split("-")` over the character list: splits at every dash,
keeping empty segments, with `[[]]` for the empty string (as JS does). -/
def splitOnDash : List Char → List (List Char)
  | [] => [[]]
  | c :: rest =>
      if c = '-' then [] :: splitOnDash rest
      else
        match splitOnDash rest with
        | [] => [[c]]
        | g :: gs => (c :: g) :: gs

/-- Decimal value of a digit run. -/
def digitsToNat (ds : List Char) : Nat :=
  ds.foldl (fun n c => n * 10 + (c.toNat - 48)) 0

/-- JS `parseInt` on a decimal string: parses the longest leading run of
digits; `none` models the NaN result when no leading digit exists. -/
def jsParseInt (cs : List Char) : Option Nat :=
  match cs.takeWhile (fun c => c.isDigit) with
  | [] => none
  | ds => some (digitsToNat ds)

/-- `parseInt(slotId.split("-").pop() || "0")` from api.ts line 99: the
timestamp is the last dash-separated segment of the slot id; an empty last
segment falls back to "0". -/
def slotTimestampOf (slotId : String) : Option Nat :=
  jsParseInt
    (if ((splitOnDash slotId.data).getLastD []).isEmpty then ['0']
     else (splitOnDash slotId.data).getLastD [])

/-- JS `.padStart(3, "0")`. -/
def padStart3 (s : String) : String :=
  if 3 ≤ s.length then s else String.mk (List.replicate (3 - s.length) '0') ++ s

/-- The ACTIVE `createAppointment` of src/frontend/lib/api.ts lines 79-130: a
local stub (its own log labels it "[STUB]"; the fetch-based implementation is
commented out at lines 20-41).  Environment values are parameters: `providers`
is the result of the awaited `getProviders()` fetch, `nowMs` is `Date.now()`,
`nowIso` is `new Date().toISOString()`, `rand` is the value Math.random() based
computation floors (taken modulo 1000 as the code's `* 1000` bound produces),
and `isoDate` renders a timestamp as the dash-stripped UTC calendar date
(`startTime.toISOString()` split at "T", dashes removed).  A thrown JS error
is `Except.error`; a non-numeric slot-id suffix makes `toISOString()` throw a
RangeError on the invalid date. -/
def createAppointment (providers : List ProviderRec) (nowMs : Nat)
    (nowIso : String) (rand : Nat) (isoDate : Nat → String)
    (slotId providerId : String) (patient : PatientInfo) (reason : String) :
    Except String Appointment :=
  match providers.find? (fun p => p.id == providerId) with
  | none => .error "Provider not found"
  | some provider =>
      match slotTimestampOf slotId with
      | none => .error "RangeError: Invalid time value"
      | some ts =>
          .ok { id := "appointment-" ++ toString nowMs
                reference_number :=
                  "REF-" ++ isoDate ts ++ "-" ++ padStart3 (toString (rand % 1000))
                status := "confirmed"
                slot := { start_time := ts, end_time := ts + 30 * 60 * 1000 }
                provider := { id := provider.id, name := provider.name,
                              specialty := provider.specialty }
                patient := patient
                reason := reason
                created_at := nowIso }

/-- Status of the appointment a `createAppointment` run reports, `none` when
the run threw. -/
def apptStatus : Except String Appointment → Option String
  | .ok a => some a.status
  | .error _ => none

/-- Appointment carried by an `Except.ok` result (placeholder on error). -/
def apptOrDefault (e : Except String Appointment) : Appointment :=
  match e with
  | .ok a => a
  | .error _ =>
      { id := "", reference_number := "", status := "",
        slot := { start_time := 0, end_time := 0 },
        provider := { id := "", name := "", specialty := "" },
        patient := { first_name := "", last_name := "", email := "", phone := "" },
        reason := "", created_at := "" }

/- ===================== Time library (time.ts) ===================== -/

/-- `parseISOToDate` from src/frontend/lib/time.ts: a falsy input (null,
undefined, or the empty string) yields null; otherwise `new Date(iso)` runs
(it never throws on a string, so the try/catch is inert).  The JS Date
constructor is the parameter `jsNewDate`. -/
def parseISOToDate {D : Type} (jsNewDate : String → D) :
    Option String → Option D
  | none => none
  | some iso => if iso = "" then none else some (jsNewDate iso)

/-- `formatUTCDate` from time.ts: empty string on missing input, otherwise the
locale rendering (`toLocaleDateString` with UTC defaults merged with opts),
abstracted as the parameter `toLocaleDate`. -/
def formatUTCDate {D : Type} (jsNewDate : String → D) (toLocaleDate : D → String)
    (iso : Option String) : String :=
  match parseISOToDate jsNewDate iso with
  | none => ""
  | some d => toLocaleDate d

/-- `formatUTCDateShort` from time.ts. -/
def formatUTCDateShort {D : Type} (jsNewDate : String → D)
    (toLocaleDate : D → String) (iso : Option String) : String :=
  match parseISOToDate jsNewDate iso with
  | none => ""
  | some d => toLocaleDate d

/-- `formatUTCTime` from time.ts (`toLocaleTimeString`). -/
def formatUTCTime {D : Type} (jsNewDate : String → D)
    (toLocaleTime : D → String) (iso : Option String) : String :=
  match parseISOToDate jsNewDate iso with
  | none => ""
  | some d => toLocaleTime d

/-- `formatUTCDateTimeShort` from time.ts (`toLocaleString`). -/
def formatUTCDateTimeShort {D : Type} (jsNewDate : String → D)
    (toLocale : D → String) (iso : Option String) : String :=
  match parseISOToDate jsNewDate iso with
  | none => ""
  | some d => toLocale d

/- ===================== TimeSlotPicker (both variants) ===================== -/

/-- The `TimeSlot` interface of src/frontend/lib/api.ts (ISO timestamp
strings, advisory availability flag). -/
structure TimeSlot where
  id : String
  start_time : String
  end_time : String
  available : Bool
deriving DecidableEq, Repr

/-- One step of the JS `reduce` grouping: append the slot to the group of its
key, preserving first-seen key order (JS object string keys iterate in
insertion order). -/
def insertGrouped (acc : List (String × List TimeSlot)) (key : String)
    (s : TimeSlot) : List (String × List TimeSlot) :=
  match acc with
  | [] => [(key, [s])]
  | (k, g) :: rest =>
      if k == key then (k, g ++ [s]) :: rest
      else (k, g) :: insertGrouped rest key s

/-- The `slotsByDate` grouping shared by both picker variants: slots keyed by
`format(parseISO(slot.start_time), "yyyy-MM-dd")`, the rendering being the
parameter `dateKey`. -/
def groupSlotsByDate (dateKey : String → String) (slots : List TimeSlot) :
    List (String × List TimeSlot) :=
  slots.foldl (fun acc s => insertGrouped acc (dateKey s.start_time) s) []

/-- The per-slot button of src/frontend/components/TimeSlotPicker.tsx: only
the props the selection claim concerns (the rendered slot and the `disabled`
prop). -/
structure SlotButton where
  slot : TimeSlot
  disabled : Bool
deriving DecidableEq, Repr

/-- Button rendered for one slot in TimeSlotPicker.tsx lines 39-44:
`disabled={!slot.available}`. -/
def renderSlotButtonA (s : TimeSlot) : SlotButton :=
  { slot := s, disabled := !s.available }

/-- Every slot button TimeSlotPicker.tsx renders: the date groups in order,
each group's slots in order. -/
def timeSlotPickerButtons (dateKey : String → String) (slots : List TimeSlot) :
    List SlotButton :=
  ((groupSlotsByDate dateKey slots).map (fun g => g.2.map renderSlotButtonA)).flatten

/-- `availableSlots` of the alternative TimeSlotPicker variant: taken slots are
filtered out of the rendered list entirely. -/
def availableSlots (slots : List TimeSlot) : List TimeSlot :=
  slots.filter (fun s => s.available)

/-- `slotsByDate[selectedDate] ?? []` of the alternative variant. -/
def lookupGroup (groups : List (String × List TimeSlot)) (d : String) :
    List TimeSlot :=
  match groups.find? (fun g => g.1 == d) with
  | some g => g.2
  | none => []

/-- `currentSlots` of the alternative TimeSlotPicker variant: the times
rendered for the selected date, drawn from the availability-filtered grouping. -/
def currentSlots (dateKey : String → String) (slots : List TimeSlot)
    (selectedDate : Option String) : List TimeSlot :=
  match selectedDate with
  | none => []
  | some d => lookupGroup (groupSlotsByDate dateKey (availableSlots slots)) d

/-- The Book button's `disabled={!selectedSlot || !selectedSlot.available}` of
the alternative TimeSlotPicker variant. -/
def bookDisabled : Option TimeSlot → Bool
  | none => true
  | some s => !s.available

/- ===================== Concrete instances ===================== -/

/-- Provider fixture matching the stub's `getProviders` lookup. -/
def prov1 : ProviderRec := { id := "p1", name := "Dr. A", specialty := "gp" }

/-- Provider list fixture. -/
def provs0 : List ProviderRec := [prov1]

/-- Patient fixture. -/
def pat0 : PatientInfo :=
  { first_name := "Ada", last_name := "L", email := "ada@example.com",
    phone := "15551234567" }

/-- Second, distinct patient fixture. -/
def pat1 : PatientInfo :=
  { first_name := "Ben", last_name := "K", email := "ben@example.com",
    phone := "15557654321" }

/-- Fixed date rendering for the reference number (its content is irrelevant
to every claim). -/
def iso0 : Nat → String := fun _ => "20231114"

/-- Slot id fixture in the frontend's `slot-<provider>-<timestamp>` shape. -/
def slotId0 : String := "slot-p1-1700000000000"

/-- An active (scheduled) reservation occupying `slotId0`. -/
def bookedRow : AppointmentRow :=
  { id := "a1", reference_number := "R1", slot_id := slotId0,
    provider_id := "p1", patient_id := 1, reason := "earlier booking",
    status := "scheduled" }

/-- A cancelled reservation on slot S1. -/
def cancelledRow : AppointmentRow :=
  { id := "a1", reference_number := "R1", slot_id := "S1",
    provider_id := "p1", patient_id := 1, reason := "first booking",
    status := "cancelled" }

/-- A fresh reservation attempting to rebook slot S1 after the cancellation. -/
def rebookRow : AppointmentRow :=
  { id := "a2", reference_number := "R2", slot_id := "S1",
    provider_id := "p1", patient_id := 2, reason := "rebooking",
    status := "scheduled" }

/-- Empty store fixture. -/
def db0 : DBState := { time_slots := [], appointments := [] }

/-- Reserve request whose reason has length 2. -/
def req2 : ReserveRequest :=
  { provider_id := "p1", start_time := 0, patient := pat0, reason := "ab" }

/-- Reserve request whose reason has length 3. -/
def req3 : ReserveRequest :=
  { provider_id := "p1", start_time := 0, patient := pat0, reason := "abc" }

/-- Reserve request whose reason has length 500. -/
def req500 : ReserveRequest :=
  { provider_id := "p1", start_time := 0, patient := pat0,
    reason := String.mk (List.replicate 500 'a') }

/-- Reserve request whose reason has length 501. -/
def req501 : ReserveRequest :=
  { provider_id := "p1", start_time := 0, patient := pat0,
    reason := String.mk (List.replicate 501 'a') }

/-- Unavailable slot fixture. -/
def slotU : TimeSlot :=
  { id := "t1", start_time := "2024-01-01T10:00:00Z",
    end_time := "2024-01-01T10:30:00Z", available := false }

/-- Available slot fixture. -/
def slotA : TimeSlot :=
  { id := "t2", start_time := "2024-01-01T11:00:00Z",
    end_time := "2024-01-01T11:30:00Z", available := true }

/-- Date-key fixture. -/
def dk0 : String → String := fun _ => "2024-01-01"

/-- Slot list fixture mixing an unavailable and an available slot. -/
def slotsW : List TimeSlot := [slotU, slotA]

/- ===================== Theorems ===================== -/

/-- C1: the claim demands that of N >= 2 concurrent `Reserve`
(createAppointment) calls against the identical slot, exactly one returns
success.  The active createAppointment is a local stub that consults no shared
state, so any two calls against the same (provider, start_time) slot — under
any interleaving — both report success: here two such runs both yield an
appointment with status "confirmed".  This refutes the claim against the code
as shipped; the repository's own documentation (concurrency tests asserting
exactly one success) and the commented-out fetch implementation show the stub
is the slip. -/
theorem stub_createAppointment_double_success :
    apptStatus (createAppointment provs0 1000 "t0" 7 iso0 slotId0 "p1" pat0
        "checkup") = some "confirmed" ∧
    apptStatus (createAppointment provs0 2000 "t1" 8 iso0 slotId0 "p1" pat1
        "checkup") = some "confirmed" := by
  constructor <;> rfl

/-- C2: the claim says the uniqueness constraint on appointments(slot_id)
exempts cancelled rows, so a cancelled reservation does not block rebooking.
In the schema dump, `ux_appointments_slot_id_not_cancelled` is a plain unique
index on slot_id with no partial WHERE clause, so a fresh, fully valid
reservation row for a slot whose only existing reservation is cancelled is
still rejected: cancellation does NOT free the slot at the store level,
contradicting the index's own name and the repository's documentation. -/
theorem cancelled_row_still_blocks_slot_insert :
    (cancelledRow.status == "cancelled") = true ∧
    chk_reason_length rebookRow.reason = true ∧
    (rebookRow.slot_id == cancelledRow.slot_id) = true ∧
    (rebookRow.reference_number != cancelledRow.reference_number) = true ∧
    (rebookRow.id != cancelledRow.id) = true ∧
    insertAppointment [cancelledRow] rebookRow = none := by
  refine ⟨rfl, by decide, rfl, by decide, by decide, by decide⟩

/-- C5: the claim demands that Reserve (createAppointment) never reports
success when the requested slot already has an active reservation.  The stub
consults no reservation state at all: with an active (scheduled) reservation
occupying the very slot being requested, the call still reports a successful
"confirmed" appointment instead of a conflict. -/
theorem stub_createAppointment_ignores_booked_slot :
    hasActiveReservation [bookedRow] slotId0 = true ∧
    apptStatus (createAppointment provs0 3000 "t2" 9 iso0 slotId0 "p1" pat1
        "second request") = some "confirmed" := by
  refine ⟨by decide, rfl⟩

/-- C6: the claim says every reservation a successful createAppointment call
creates has status "scheduled", with statuses drawn from
{scheduled, cancelled, completed}.  The stub sets status "confirmed", which is
not "scheduled" and lies outside the allowed set — contradicting the schema's
`'scheduled'` column default and the documented expectations. -/
theorem stub_createAppointment_status_confirmed :
    apptStatus (createAppointment provs0 4000 "t3" 10 iso0 slotId0 "p1" pat0
        "followup visit") = some "confirmed" ∧
    (["scheduled", "cancelled", "completed"].contains "confirmed") = false := by
  refine ⟨rfl, by decide⟩

/-- C9: every date/time formatting function of the time library is total on
missing input: for null/undefined (`none`) or the empty string, parseISOToDate
returns null and each format function returns the empty string, whatever the
ambient JS Date construction and locale rendering do; nothing is thrown (the
definitions are total). -/
theorem time_lib_total_on_missing_input {D : Type} (jsNewDate : String → D)
    (fDate fDateShort fTime fDateTimeShort : D → String) :
    parseISOToDate jsNewDate none = none ∧
    parseISOToDate jsNewDate (some "") = none ∧
    formatUTCDate jsNewDate fDate none = "" ∧
    formatUTCDate jsNewDate fDate (some "") = "" ∧
    formatUTCDateShort jsNewDate fDateShort none = "" ∧
    formatUTCDateShort jsNewDate fDateShort (some "") = "" ∧
    formatUTCTime jsNewDate fTime none = "" ∧
    formatUTCTime jsNewDate fTime (some "") = "" ∧
    formatUTCDateTimeShort jsNewDate fDateTimeShort none = "" ∧
    formatUTCDateTimeShort jsNewDate fDateTimeShort (some "") = "" := by
  simp [parseISOToDate, formatUTCDate, formatUTCDateShort, formatUTCTime,
    formatUTCDateTimeShort]

/-- Helper: filtering with a stronger predicate keeps at most as many
elements. -/
theorem length_filter_le_of_imp {α : Type} (r p : α → Bool)
    (h : ∀ a, r a = true → p a = true) :
    ∀ l : List α, (l.filter r).length ≤ (l.filter p).length := by
  intro l
  induction l with
  | nil => simp
  | cons a t ih =>
    cases hr : r a with
    | true =>
      simp only [List.filter_cons, hr, h a hr, if_true, List.length_cons]
      exact Nat.succ_le_succ ih
    | false =>
      cases hp : p a with
      | true =>
        simp only [List.filter_cons, hr, hp, if_true,
          Bool.false_eq_true, if_false, List.length_cons]
        exact Nat.le_succ_of_le ih
      | false =>
        simpa only [List.filter_cons, hr, hp, Bool.false_eq_true, if_false]
          using ih

/-- Helper: a filtered count over a mapped list is unchanged when the map
preserves the predicate. -/
theorem length_filter_map_eq {α : Type} (f : α → α) (p : α → Bool)
    (hf : ∀ a, p (f a) = p a) (l : List α) :
    ((l.map f).filter p).length = (l.filter p).length := by
  induction l with
  | nil => rfl
  | cons a t ih =>
    simp only [List.map_cons, List.filter_cons, hf a]
    cases hp : p a <;> simp [ih]

/-- Helper: filtering a sublist (another filter) keeps at most as many
elements. -/
theorem length_filter_filter_le {α : Type} (q p : α → Bool) (l : List α) :
    ((l.filter q).filter p).length ≤ (l.filter p).length := by
  induction l with
  | nil => simp
  | cons a t ih =>
    cases hq : q a <;> cases hp : p a <;>
      simp only [List.filter_cons, hq, hp, if_true, Bool.false_eq_true,
        if_false, List.length_cons] <;> omega

/-- Helper: an active count never exceeds the raw per-slot row count. -/
theorem activeCount_le_rowCount (appts : List AppointmentRow) (sid : String) :
    activeCount appts sid ≤ rowCount appts sid := by
  unfold activeCount rowCount
  exact length_filter_le_of_imp _ _
    (fun r hr => by
      have := (Bool.and_eq_true _ _).mp hr
      exact this.1) appts

/-- Helper: a constraint-respecting insert keeps the per-slot row count at
one or below. -/
theorem rowCount_insert_le {s s2 : List AppointmentRow} {row : AppointmentRow}
    (h : insertAppointment s row = some s2) (sid : String)
    (hs : rowCount s sid ≤ 1) : rowCount s2 sid ≤ 1 := by
  unfold insertAppointment at h
  by_cases hok : apptInsertOk s row = true
  · rw [if_pos hok] at h
    cases h
    have hall : ∀ r ∈ s, (r.slot_id != row.slot_id) = true := by
      have h4 := (Bool.and_eq_true _ _).mp hok
      exact List.all_eq_true.mp h4.2
    unfold rowCount
    by_cases hsid : (row.slot_id == sid) = true
    · have hkey : row.slot_id = sid := eq_of_beq hsid
      have hnil : s.filter (fun r => r.slot_id == sid) = [] := by
        rw [List.filter_eq_nil_iff]
        intro r hr
        have := hall r hr
        simp only [bne_iff_ne, ne_eq] at this
        simp only [beq_iff_eq]
        rw [← hkey]
        exact fun hc => this hc
      simp [List.filter_cons, hsid, hnil]
    · simp only [List.filter_cons, hsid, if_false]
      exact hs
  · rw [if_neg hok] at h
    cases h

/-- Helper: a status update never changes the per-slot row count. -/
theorem rowCount_updateStatus (s : List AppointmentRow) (aid st sid : String) :
    rowCount (updateStatus s aid st) sid = rowCount s sid := by
  unfold updateStatus rowCount
  exact length_filter_map_eq _ _
    (fun a => by by_cases h : (a.id == aid) = true <;> simp [h]) s

/-- Helper: a delete never raises the per-slot row count. -/
theorem rowCount_delete_le (s : List AppointmentRow) (aid sid : String) :
    rowCount (deleteAppointment s aid) sid ≤ rowCount s sid := by
  unfold deleteAppointment rowCount
  exact length_filter_filter_le _ _ s

/-- Helper: every reachable appointments state has at most one row per slot;
this is what `ux_appointments_slot_id_not_cancelled` (a full unique index on
slot_id in the schema dump) enforces. -/
theorem rowCount_reachable (sid : String) {s : List AppointmentRow}
    (h : ApptReachable s) : rowCount s sid ≤ 1 := by
  induction h with
  | empty => simp [rowCount]
  | insert _ hins ih => exact rowCount_insert_le hins sid ih
  | update aid st _ ih => rw [rowCount_updateStatus]; exact ih
  | delete aid _ ih => exact le_trans (rowCount_delete_le _ aid sid) ih

/-- C3: in every reachable database state, each slot is referenced by at most
one reservation with status other than cancelled, and every operation writing
appointment rows (constraint-guarded insert, status update, delete) preserves
this.  The schema in fact enforces the stronger property of at most one row
per slot regardless of status, from which the claimed invariant follows. -/
theorem active_reservation_unique_per_slot {s : List AppointmentRow}
    (h : ApptReachable s) (sid : String) : activeCount s sid ≤ 1 :=
  le_trans (activeCount_le_rowCount s sid) (rowCount_reachable sid h)

/-- C3 witness: the invariant evaluated on a concrete reachable state, built
by one constraint-guarded insert from the empty table. -/
theorem active_reservation_unique_per_slot_witness :
    activeCount [rebookRow] "S1" ≤ 1 :=
  active_reservation_unique_per_slot
    (@ApptReachable.insert [] [rebookRow] rebookRow ApptReachable.empty
      (by decide)) "S1"

/-- Helper: one `resolveOrCreate` step keeps every composite key unique. -/
theorem slotKeyCount_resolveOrCreate_le {tbl : List TimeSlotRow}
    (hinv : ∀ pid t, slotKeyCount tbl pid t ≤ 1) (newId pid0 : String)
    (t0 te : Int) :
    ∀ pid t, slotKeyCount (resolveOrCreate tbl newId pid0 t0 te).2 pid t ≤ 1 := by
  intro pid t
  unfold resolveOrCreate
  cases hf : tbl.find? (fun r => r.provider_id == pid0 && r.start_time == t0) with
  | some r => exact hinv pid t
  | none =>
    unfold slotKeyCount
    rw [List.filter_cons]
    dsimp only
    by_cases hm : (pid0 == pid && t0 == t) = true
    · have hkey : pid0 = pid ∧ t0 = t := by
        have := (Bool.and_eq_true _ _).mp hm
        exact ⟨eq_of_beq this.1, eq_of_beq this.2⟩
      have hnone := List.find?_eq_none.mp hf
      have hnil : tbl.filter (fun r => r.provider_id == pid && r.start_time == t)
          = [] := by
        rw [List.filter_eq_nil_iff]
        intro r hr
        have := hnone r hr
        rw [← hkey.1, ← hkey.2]
        exact fun hc => this hc
      simp [hm, hnil]
    · simp only [eq_false_of_ne_true hm, Bool.false_eq_true, if_false]
      exact hinv pid t

/-- Helper: after a `resolveOrCreate` call for a key, exactly one slot row for
that key exists. -/
theorem slotKeyCount_after_resolveOrCreate {tbl : List TimeSlotRow}
    (hinv : ∀ pid t, slotKeyCount tbl pid t ≤ 1) (newId pid : String)
    (t te : Int) :
    slotKeyCount (resolveOrCreate tbl newId pid t te).2 pid t = 1 := by
  unfold resolveOrCreate
  cases hf : tbl.find? (fun r => r.provider_id == pid && r.start_time == t) with
  | some r =>
    simp only []
    have hmem : r ∈ tbl := List.mem_of_find?_eq_some hf
    have hkey := List.find?_some hf
    have h1 : 1 ≤ slotKeyCount tbl pid t := by
      unfold slotKeyCount
      have : r ∈ tbl.filter (fun r => r.provider_id == pid && r.start_time == t) :=
        List.mem_filter.mpr ⟨hmem, hkey⟩
      exact List.length_pos_of_mem this
    have h2 := hinv pid t
    omega
  | none =>
    simp only []
    unfold slotKeyCount
    rw [List.filter_cons]
    have hnone := List.find?_eq_none.mp hf
    have hnil : tbl.filter (fun r => r.provider_id == pid && r.start_time == t)
        = [] := by
      rw [List.filter_eq_nil_iff]
      intro r hr
      exact fun hc => hnone r hr hc
    simp [hnil]

/-- C7: the composite key (provider_id, start_time) identifies at most one
slot row in every reachable time_slots state — the property the unique index
`ux_time_slots_provider_start_time` enforces — and a `resolveOrCreate` run
against any key, previously seen or not, leaves exactly one slot row for that
key, so any number of serialized first-time Reserve calls materialize the slot
exactly once. -/
theorem slot_key_unique_and_resolve_once {tbl : List TimeSlotRow}
    (h : SlotsReachable tbl) :
    (∀ pid t, slotKeyCount tbl pid t ≤ 1) ∧
      ∀ newId pid t te,
        slotKeyCount (resolveOrCreate tbl newId pid t te).2 pid t = 1 := by
  have hinv : ∀ pid t, slotKeyCount tbl pid t ≤ 1 := by
    induction h with
    | empty => intro pid t; simp [slotKeyCount]
    | step newId pid0 t0 te _ ih =>
      exact slotKeyCount_resolveOrCreate_le ih newId pid0 t0 te
  exact ⟨hinv, fun newId pid t te =>
    slotKeyCount_after_resolveOrCreate hinv newId pid t te⟩

/-- C7 witness: evaluated from the empty table, the first `resolveOrCreate`
for a fresh key leaves exactly one row for it. -/
theorem slot_key_unique_and_resolve_once_witness :
    slotKeyCount [] "p1" 0 ≤ 1 ∧
    slotKeyCount (resolveOrCreate [] "s1" "p1" 0 1800000).2 "p1" 0 = 1 :=
  ⟨(slot_key_unique_and_resolve_once SlotsReachable.empty).1 "p1" 0,
   (slot_key_unique_and_resolve_once SlotsReachable.empty).2 "s1" "p1" 0 1800000⟩

/-- Helper: the in-transaction phase never produces a ValidationError. -/
theorem reserveLocked_not_validationError (db : DBState) (req : ReserveRequest)
    (slot : TimeSlotRow) (slots2 : List TimeSlotRow) (newApptId refCode : String)
    (patientId : Nat) :
    isValidationError
      (reserveLocked db req slot slots2 newApptId refCode patientId).1 = false := by
  unfold reserveLocked
  split
  · rfl
  · split <;> rfl

/-- C4: a Reserve whose reason length lies outside [3, 500] — in particular
length 2 or 501 — is rejected as a ValidationError with an empty store-event
trace (no transaction opened, no lock touched) and an unchanged store, while a
reason length inside the range — in particular 3 or 500 — is never rejected by
the length gate; the gate's bounds are the schema's `chk_reason_length`. -/
theorem reserve_reason_length_gate (db : DBState) (req : ReserveRequest)
    (newSlotId newApptId refCode : String) (patientId : Nat) :
    (req.reason.length < 3 ∨ 500 < req.reason.length →
        reserve db req newSlotId newApptId refCode patientId =
          (ReserveOutcome.validationError, [], db)) ∧
      (3 ≤ req.reason.length → req.reason.length ≤ 500 →
        isValidationError
          (reserve db req newSlotId newApptId refCode patientId).1 = false) := by
  constructor
  · intro h
    have hv : validateReason req.reason = false := by
      unfold validateReason chk_reason_length
      rcases h with h | h
      · simp only [Bool.and_eq_false_iff, decide_eq_false_iff_not]
        left
        omega
      · simp only [Bool.and_eq_false_iff, decide_eq_false_iff_not]
        right
        omega
    unfold reserve
    rw [hv]
    simp
  · intro h3 h500
    have hv : validateReason req.reason = true := by
      unfold validateReason chk_reason_length
      simp [h3, h500]
    unfold reserve
    rw [hv]
    simp only [if_true]
    exact reserveLocked_not_validationError _ _ _ _ _ _ _

set_option maxRecDepth 4000 in
/-- C4 witness: the gate evaluated at the four boundary lengths 2, 501, 3 and
500. -/
theorem reserve_reason_length_gate_witness :
    reserve db0 req2 "s1" "a1" "R1" 1 = (ReserveOutcome.validationError, [], db0) ∧
    reserve db0 req501 "s1" "a1" "R1" 1 =
      (ReserveOutcome.validationError, [], db0) ∧
    isValidationError (reserve db0 req3 "s1" "a1" "R1" 1).1 = false ∧
    isValidationError (reserve db0 req500 "s1" "a1" "R1" 1).1 = false :=
  ⟨(reserve_reason_length_gate db0 req2 "s1" "a1" "R1" 1).1 (Or.inl (by decide)),
   (reserve_reason_length_gate db0 req501 "s1" "a1" "R1" 1).1
     (Or.inr (by decide)),
   (reserve_reason_length_gate db0 req3 "s1" "a1" "R1" 1).2 (by decide)
     (by decide),
   (reserve_reason_length_gate db0 req500 "s1" "a1" "R1" 1).2 (by decide)
     (by decide)⟩

/-- C8: every appointment a successful createAppointment run reports carries
end_time = start_time + 30 minutes (in milliseconds); the end time is computed
from the slot timestamp alone — the function's inputs carry no independent end
time at all. -/
theorem createAppointment_end_time_derived (providers : List ProviderRec)
    (nowMs : Nat) (nowIso : String) (rand : Nat) (isoDate : Nat → String)
    (slotId providerId : String) (patient : PatientInfo) (reason : String)
    (a : Appointment)
    (h : createAppointment providers nowMs nowIso rand isoDate slotId providerId
        patient reason = Except.ok a) :
    a.slot.end_time = a.slot.start_time + 30 * 60 * 1000 := by
  unfold createAppointment at h
  split at h
  · exact Except.noConfusion h
  · split at h
    · exact Except.noConfusion h
    · cases h
      rfl

/-- C8 witness: the derivation evaluated on a concrete successful run. -/
theorem createAppointment_end_time_derived_witness :
    (apptOrDefault
        (createAppointment provs0 0 "t" 0 iso0 "slot-p1-1000" "p1" pat0
          "xyz")).slot.end_time =
      (apptOrDefault
        (createAppointment provs0 0 "t" 0 iso0 "slot-p1-1000" "p1" pat0
          "xyz")).slot.start_time + 30 * 60 * 1000 :=
  createAppointment_end_time_derived provs0 0 "t" 0 iso0 "slot-p1-1000" "p1"
    pat0 "xyz" _ rfl

/-- Helper: a slot property holding on an accumulator's groups and on the
inserted slot holds on the result's groups. -/
theorem insertGrouped_forall {P : TimeSlot → Prop} {key : String} {s : TimeSlot} :
    ∀ {acc : List (String × List TimeSlot)},
      (∀ k g, (k, g) ∈ acc → ∀ x ∈ g, P x) → P s →
      ∀ k g, (k, g) ∈ insertGrouped acc key s → ∀ x ∈ g, P x := by
  intro acc
  induction acc with
  | nil =>
    intro _ hs k g hg x hx
    simp only [insertGrouped, List.mem_singleton, Prod.mk.injEq] at hg
    rcases hg with ⟨_, hg2⟩
    subst hg2
    simp only [List.mem_singleton] at hx
    subst hx
    exact hs
  | cons a rest ih =>
    intro hacc hs k g hg x hx
    obtain ⟨ka, ga⟩ := a
    unfold insertGrouped at hg
    by_cases hk : (ka == key) = true
    · rw [if_pos hk] at hg
      rcases List.mem_cons.mp hg with h | h
      · have h2 : g = ga ++ [s] := congrArg Prod.snd h
        rw [h2] at hx
        rcases List.mem_append.mp hx with h3 | h3
        · exact hacc ka ga (List.mem_cons_self _ _) x h3
        · simp only [List.mem_singleton] at h3
          subst h3
          exact hs
      · exact hacc k g (List.mem_cons_of_mem _ h) x hx
    · rw [if_neg hk] at hg
      rcases List.mem_cons.mp hg with h | h
      · have h2 : g = ga := congrArg Prod.snd h
        rw [h2] at hx
        exact hacc ka ga (List.mem_cons_self _ _) x hx
      · exact ih (fun k2 g2 hm => hacc k2 g2 (List.mem_cons_of_mem _ hm)) hs
          k g h x hx

/-- Helper: a slot property holding on every input slot holds on every slot of
every date group. -/
theorem groupSlotsByDate_forall {P : TimeSlot → Prop} (dateKey : String → String) :
    ∀ (slots : List TimeSlot) (acc : List (String × List TimeSlot)),
      (∀ s ∈ slots, P s) → (∀ k g, (k, g) ∈ acc → ∀ x ∈ g, P x) →
      ∀ k g,
        (k, g) ∈ slots.foldl (fun a s => insertGrouped a (dateKey s.start_time) s)
          acc →
        ∀ x ∈ g, P x := by
  intro slots
  induction slots with
  | nil =>
    intro acc _ hacc k g hg
    simpa using hacc k g hg
  | cons s t ih =>
    intro acc hs hacc
    simp only [List.foldl_cons]
    exact ih _ (fun x hx => hs x (List.mem_cons_of_mem _ hx))
      (insertGrouped_forall hacc (hs s (List.mem_cons_self _ _)))

/-- C10: an unavailable slot cannot be selected through either TimeSlotPicker
variant.  In TimeSlotPicker.tsx every rendered slot button for a slot whose
available flag is false carries disabled, so its onClick (the only route to
onSelectSlot) cannot fire; in the alternative variant the times rendered for
any selected date are drawn from the availability-filtered list — an
unavailable slot never appears — and the Book action is disabled unless the
selected slot exists and is available. -/
theorem unavailable_slot_not_selectable (dateKey : String → String)
    (slots : List TimeSlot) :
    (∀ b ∈ timeSlotPickerButtons dateKey slots,
        b.slot.available = false → b.disabled = true) ∧
    (∀ d, ∀ x ∈ currentSlots dateKey slots (some d), x.available = true) ∧
    (∀ sel : Option TimeSlot, bookDisabled sel = false →
        ∃ s, sel = some s ∧ s.available = true) := by
  refine ⟨?_, ?_, ?_⟩
  · intro b hb hfalse
    unfold timeSlotPickerButtons at hb
    rw [List.mem_flatten] at hb
    obtain ⟨l, hl, hbl⟩ := hb
    rw [List.mem_map] at hl
    obtain ⟨g, hg, hgl⟩ := hl
    subst hgl
    rw [List.mem_map] at hbl
    obtain ⟨x, hxg, hxb⟩ := hbl
    subst hxb
    unfold renderSlotButtonA at hfalse ⊢
    simp only at hfalse ⊢
    rw [hfalse]
    rfl
  · intro d x hx
    unfold currentSlots at hx
    dsimp only at hx
    unfold lookupGroup at hx
    cases hf : (groupSlotsByDate dateKey (availableSlots slots)).find?
        (fun g => g.1 == d) with
    | none => rw [hf] at hx; simp at hx
    | some g =>
      rw [hf] at hx
      have hg : g ∈ groupSlotsByDate dateKey (availableSlots slots) :=
        List.mem_of_find?_eq_some hf
      have hgroups := groupSlotsByDate_forall dateKey
        (availableSlots slots) []
        (fun s hs => by
          unfold availableSlots at hs
          exact (List.mem_filter.mp hs).2)
        (by simp)
      exact hgroups g.1 g.2 (by simpa using hg) x hx
  · intro sel h
    cases sel with
    | none => simp [bookDisabled] at h
    | some s =>
      refine ⟨s, rfl, ?_⟩
      unfold bookDisabled at h
      simpa using h

/-- C10 witness: in the concrete mixed slot list, the button rendered for the
unavailable slot is disabled. -/
theorem unavailable_slot_not_selectable_witness :
    (SlotButton.mk slotU true).disabled = true :=
  (unavailable_slot_not_selectable dk0 slotsW).1 (SlotButton.mk slotU true)
    (by decide) (by decide)
